import Mathlib

set_option linter.unusedVariables false

/-!
Verification of the `basis` repository's application-lifecycle state machine,
its promise-engine interface fragments, and the `polymorphic_downcast` helper,
as a shallow embedding of the C++ sources in Lean 4.
-/

namespace Basis

/-! ## Application lifecycle (src/basis/application/application.cc) -/

/-- The `application::ApplicationState` enum (the `kApplicationStateTotal`
sentinel is a count marker, never a valid state, and is excluded). -/
inductive ApplicationState where
  | kApplicationStatePreloading
  | kApplicationStateStarted
  | kApplicationStatePaused
  | kApplicationStateSuspended
  | kApplicationStateStopped
deriving DecidableEq, Repr

open ApplicationState

/-- Observer notifications issued through `ObserverListThreadSafe::Notify`:
`onStateChange(state)` and `onFocusChange(has_focus)`. -/
inductive Event where
  | stateChange (state : ApplicationState)
  | focusChange (has_focus : Bool)
deriving DecidableEq, Repr

/-- `Application::HasFocus`: `true` only for `kApplicationStateStarted`. -/
def HasFocus : ApplicationState → Bool
  | kApplicationStateStarted => true
  | kApplicationStatePreloading => false
  | kApplicationStatePaused => false
  | kApplicationStateSuspended => false
  | kApplicationStateStopped => false

/-- The `Application` object state: the current lifecycle state, the
`app_loaded_` waitable event's signaled flag, and the trace of observer
notifications issued so far. -/
structure Application where
  application_state_ : ApplicationState
  app_loaded_ : Bool
  events : List Event
deriving DecidableEq, Repr

/-- `Application::notifyStateChange`: broadcast `onStateChange` to observers. -/
def notifyStateChange (app : Application) (state : ApplicationState) : Application :=
  { app with events := app.events ++ [Event.stateChange state] }

/-- `Application::notifyFocusChange`: broadcast `onFocusChange` to observers. -/
def notifyFocusChange (app : Application) (has_focus : Bool) : Application :=
  { app with events := app.events ++ [Event.focusChange has_focus] }

/-- The transition audit in `Application::setApplicationState` (the
`DLOG_IS_ON(FATAL)` switch): given the previous state and the requested
state (already known to differ), whether the `DCHECK` passes. -/
def transitionAuditOk (previous state : ApplicationState) : Bool :=
  match previous with
  | kApplicationStatePaused =>
      state == kApplicationStateSuspended || state == kApplicationStateStarted
  | kApplicationStatePreloading =>
      state == kApplicationStateSuspended || state == kApplicationStateStarted
  | kApplicationStateStarted =>
      state == kApplicationStatePaused
  | kApplicationStateStopped =>
      state == kApplicationStatePreloading || state == kApplicationStateStarted
  | kApplicationStateSuspended =>
      state == kApplicationStatePaused || state == kApplicationStateStopped

/-- `Application::setApplicationState`: re-entering the current state is an
early return (warning only); otherwise the state is assigned, observers are
notified of the new state, and a focus-change notification is issued exactly
when `HasFocus` flips.  The audit is a debug-only `DCHECK` and does not
alter control flow. -/
def setApplicationState (app : Application) (state : ApplicationState) : Application :=
  if app.application_state_ == state then
    app
  else
    let old_has_focus := HasFocus app.application_state_
    let app := { app with application_state_ := state }
    let app := notifyStateChange app app.application_state_
    let has_focus := HasFocus app.application_state_
    let focus_changed := has_focus != old_has_focus
    if focus_changed then notifyFocusChange app has_focus else app

/-- `Application::teardown`: request the `Stopped` state. -/
def teardown (app : Application) : Application :=
  setApplicationState app kApplicationStateStopped

/-- `Application::start`: request the `Started` state (debug-asserting the
current state is `Preloading`). -/
def start (app : Application) : Application :=
  setApplicationState app kApplicationStateStarted

/-- `Application::suspend`: pause first unless already paused, then move to
`Suspended`, then `Reset()` the `app_loaded_` event. -/
def suspend (app : Application) : Application :=
  let app :=
    if app.application_state_ != kApplicationStatePaused then
      setApplicationState app kApplicationStatePaused
    else app
  let app := setApplicationState app kApplicationStateSuspended
  { app with app_loaded_ := false }

/-- `Application::signalOnLoad`: `Signal()` the `app_loaded_` event. -/
def signalOnLoad (app : Application) : Application :=
  { app with app_loaded_ := true }

/-- Modelled from the spec: `base::WaitableEvent::TimedWait` is not under
`src/`; the spec describes the primitive as "a one-shot signal primitive with
blocking wait-with-timeout ... a simple event/flag".  `Application::waitForLoad`
delegates to it: with no concurrent signaler, the wait returns `true`
immediately when the flag is signaled and returns `false` once the timeout
elapses with the flag unset. -/
def waitForLoad (app : Application) (timeout : Nat) : Bool :=
  app.app_loaded_

/-- The `DCHECK(application_state_ == kApplicationStateStopped)` in
`Application::~Application`. -/
def destructorAuditOk (app : Application) : Bool :=
  app.application_state_ == kApplicationStateStopped

/-- The allowed-transition set exactly as the spec words it (for refinement
comparison against `transitionAuditOk`, which is translated from the code):
Preloading→Started; Started→Paused; Paused→{Suspended,Started};
Suspended→{Paused,Stopped}; any state→Stopped. -/
def specAllowedTransition (previous state : ApplicationState) : Bool :=
  (previous == kApplicationStatePreloading && state == kApplicationStateStarted) ||
  (previous == kApplicationStateStarted && state == kApplicationStatePaused) ||
  (previous == kApplicationStatePaused && state == kApplicationStateSuspended) ||
  (previous == kApplicationStatePaused && state == kApplicationStateStarted) ||
  (previous == kApplicationStateSuspended && state == kApplicationStatePaused) ||
  (previous == kApplicationStateSuspended && state == kApplicationStateStopped) ||
  (state == kApplicationStateStopped)

/-- Application API calls that mutate the `Application` object (used to state
properties over arbitrary subsequent call sequences). -/
inductive AppOp where
  | opSetApplicationState (state : ApplicationState)
  | opStart
  | opSuspend
  | opTeardown
  | opSignalOnLoad
deriving DecidableEq, Repr

/-- Apply one API call to the application. -/
def applyAppOp (app : Application) : AppOp → Application
  | AppOp.opSetApplicationState state => setApplicationState app state
  | AppOp.opStart => start app
  | AppOp.opSuspend => suspend app
  | AppOp.opTeardown => teardown app
  | AppOp.opSignalOnLoad => signalOnLoad app

/-- Apply a sequence of API calls, left to right. -/
def applyAppOps (app : Application) : List AppOp → Application
  | [] => app
  | op :: ops => applyAppOps (applyAppOp app op) ops

/-! ## Promise engine interface fragments -/

/-- `PromiseExecutor::PrerequisitePolicy` (spec §3: None / AnyOne /
AllPrerequisites; the source spells them `kNever` / `kAny` / `kAll`). -/
inductive PrerequisitePolicy where
  | kAll
  | kAny
  | kNever
deriving DecidableEq, Repr

/-- `base::internal::NoOpPromiseExecutor`
(src/basis/promise/no_op_promise_executor.h): carries only the debug
capability flags. -/
structure NoOpPromiseExecutor where
  can_resolve_ : Bool
  can_reject_ : Bool
deriving DecidableEq, Repr

/-- `NoOpPromiseExecutor::kPrerequisitePolicy = PrerequisitePolicy::kNever`
(no_op_promise_executor.h, lines 20-21). -/
def NoOpPromiseExecutor.kPrerequisitePolicy : PrerequisitePolicy :=
  PrerequisitePolicy.kNever

/-- Modelled from the spec: `NoOpPromiseExecutor::GetPrerequisitePolicy` is
declared in no_op_promise_executor.h but its body lives in a .cc file absent
from `src/`; the spec states `prerequisite_policy()` is "pure, constant for
the executor's lifetime" and that the no-op variant's policy is `None`
(`kNever`), so it returns the class constant. -/
def NoOpPromiseExecutor.GetPrerequisitePolicy (e : NoOpPromiseExecutor) :
    PrerequisitePolicy :=
  NoOpPromiseExecutor.kPrerequisitePolicy

/-- Modelled from the spec: the promise node's settlement state
(`AbstractPromise` is not under `src/`).  Spec §3: enum
{Pending, Resolved, Rejected, Cancelled}. -/
inductive SettlementState where
  | Pending
  | Resolved
  | Rejected
  | Cancelled
deriving DecidableEq, Repr

/-- Modelled from the spec: a settlement payload — either a resolved value or
a rejection error (spec §3: "one payload slot, write-once"). -/
inductive SettleValue where
  | resolvedPayload (v : Nat)
  | rejectedPayload (e : Nat)
deriving DecidableEq, Repr

/-- Modelled from the spec: the promise node's settlement-relevant fields
(spec §3: `state` and the write-once `value` present only when settled). -/
structure PromiseNode where
  state : SettlementState
  value : Option SettleValue
deriving DecidableEq, Repr

/-- Modelled from the spec: the result of a settlement attempt (spec §4.1 /
§6: each settlement call "returns success/failure (`AlreadySettled`)"). -/
inductive SettleResult where
  | settleOk
  | alreadySettled
deriving DecidableEq, Repr

/-- Modelled from the spec: `settle(value_or_error)` transitions
Pending → {Resolved|Rejected} exactly once; calling it again fails with
`AlreadySettled` (spec §4.1). -/
def settle (n : PromiseNode) (v : SettleValue) : PromiseNode × SettleResult :=
  if n.state == SettlementState.Pending then
    (⟨match v with
      | SettleValue.resolvedPayload _ => SettlementState.Resolved
      | SettleValue.rejectedPayload _ => SettlementState.Rejected,
      some v⟩, SettleResult.settleOk)
  else
    (n, SettleResult.alreadySettled)

/-- Modelled from the spec: `cancel()` transitions Pending → Cancelled exactly
once, fails with `AlreadySettled` if not Pending (spec §4.1). -/
def cancel (n : PromiseNode) : PromiseNode × SettleResult :=
  if n.state == SettlementState.Pending then
    (⟨SettlementState.Cancelled, n.value⟩, SettleResult.settleOk)
  else
    (n, SettleResult.alreadySettled)

/-- A settlement attempt on a node: a `settle` call or a `cancel` call. -/
inductive NodeOp where
  | settleOp (v : SettleValue)
  | cancelOp
deriving DecidableEq, Repr

/-- Apply one settlement attempt to a node. -/
def applyNodeOp (n : PromiseNode) : NodeOp → PromiseNode × SettleResult
  | NodeOp.settleOp v => settle n v
  | NodeOp.cancelOp => cancel n

/-! ## polymorphic_downcast (src/unnamed/part_001) -/

/-- The pointer model for `polymorphic_downcast`: a pointer is null or an
address; `heap a` says whether the object at address `a` has dynamic type
`Derived`.  `dynamic_cast<Derived>` yields the same pointer when the dynamic
type matches and the null pointer otherwise. -/
def dynamicCast (heap : Nat → Bool) : Option Nat → Option Nat
  | none => none
  | some a => if heap a then some a else none

/-- `static_cast<Derived>` on a base pointer: address-preserving downcast. -/
def staticCast (base : Option Nat) : Option Nat :=
  base

/-- `basis::polymorphic_downcast<Derived>(base)`: returns
`static_cast<Derived>(base)` (the `DCHECK` does not alter the result). -/
def polymorphic_downcast (heap : Nat → Bool) (base : Option Nat) : Option Nat :=
  staticCast base

/-- The `DCHECK(dynamic_cast<Derived>(base) == base)` inside
`polymorphic_downcast`. -/
def polymorphicDowncastAuditOk (heap : Nat → Bool) (base : Option Nat) : Bool :=
  dynamicCast heap base == base

/-! ## Helper lemmas -/

/-- Applying `settle`/`cancel` sequences to a node (used for monotonicity over
arbitrary later settlement attempts). -/
def applyNodeOps (n : PromiseNode) : List NodeOp → PromiseNode
  | [] => n
  | op :: ops => applyNodeOps (applyNodeOp n op).1 ops

lemma setApplicationState_self (app : Application) (s : ApplicationState)
    (h : app.application_state_ = s) : setApplicationState app s = app := by
  simp [setApplicationState, h]

lemma setApplicationState_state (app : Application) (s : ApplicationState)
    (h : app.application_state_ ≠ s) :
    (setApplicationState app s).application_state_ = s := by
  simp only [setApplicationState, beq_iff_eq, if_neg h, notifyStateChange,
    notifyFocusChange]
  split <;> rfl

lemma setApplicationState_events (app : Application) (s : ApplicationState)
    (h : app.application_state_ ≠ s) :
    (setApplicationState app s).events =
      app.events ++ [Event.stateChange s] ++
        (if HasFocus s != HasFocus app.application_state_ then
          [Event.focusChange (HasFocus s)]
        else []) := by
  simp only [setApplicationState, beq_iff_eq, if_neg h, notifyStateChange,
    notifyFocusChange]
  split
  · simp
  · simp

lemma setApplicationState_app_loaded (app : Application) (s : ApplicationState) :
    (setApplicationState app s).app_loaded_ = app.app_loaded_ := by
  simp only [setApplicationState, notifyStateChange, notifyFocusChange]
  split
  · rfl
  · split <;> rfl

lemma applyNodeOp_settled (n : PromiseNode) (op : NodeOp)
    (h : n.state ≠ SettlementState.Pending) :
    applyNodeOp n op = (n, SettleResult.alreadySettled) := by
  cases op <;> simp [applyNodeOp, settle, cancel, h]

lemma applyNodeOps_settled (ops : List NodeOp) : ∀ n : PromiseNode,
    n.state ≠ SettlementState.Pending → applyNodeOps n ops = n := by
  induction ops with
  | nil => intro n h; rfl
  | cons op ops ih =>
      intro n h
      show applyNodeOps (applyNodeOp n op).1 ops = n
      rw [applyNodeOp_settled n op h]
      exact ih n h

lemma applyAppOp_preserves_loaded (app : Application) (op : AppOp)
    (h1 : app.app_loaded_ = true) (h2 : op ≠ AppOp.opSuspend) :
    (applyAppOp app op).app_loaded_ = true := by
  cases op with
  | opSetApplicationState s =>
      show (setApplicationState app s).app_loaded_ = true
      rw [setApplicationState_app_loaded]; exact h1
  | opStart =>
      show (setApplicationState app _).app_loaded_ = true
      rw [setApplicationState_app_loaded]; exact h1
  | opSuspend => exact absurd rfl h2
  | opTeardown =>
      show (setApplicationState app _).app_loaded_ = true
      rw [setApplicationState_app_loaded]; exact h1
  | opSignalOnLoad => rfl

lemma applyAppOps_preserves_loaded (ops : List AppOp) : ∀ app : Application,
    app.app_loaded_ = true → (∀ op ∈ ops, op ≠ AppOp.opSuspend) →
    (applyAppOps app ops).app_loaded_ = true := by
  induction ops with
  | nil => intro app h _; exact h
  | cons op ops ih =>
      intro app h hall
      exact ih _
        (applyAppOp_preserves_loaded app op h (hall op (List.mem_cons_self op ops)))
        (fun o ho => hall o (List.mem_cons_of_mem op ho))

/-! ## Claim theorems -/

/-- C1 (counterexample): the claim "no transition ever leaves the Stopped
state" is false: from `Stopped`, `setApplicationState(Started)` changes the
state to `Started`. -/
theorem stopped_absorbing_cex :
    (setApplicationState ⟨kApplicationStateStopped, false, []⟩
      kApplicationStateStarted).application_state_ ≠ kApplicationStateStopped := by
  decide

/-- C1 (amended): `Stopped` is not absorbing.  A `setApplicationState` call
made while the state is `Stopped`, requesting a different state, proceeds and
sets the state to the requested one; the debug audit accepts exactly the
restart transitions Stopped→Preloading and Stopped→Started. -/
theorem stopped_is_not_absorbing (app : Application) (s : ApplicationState)
    (h1 : app.application_state_ = kApplicationStateStopped)
    (h2 : s ≠ kApplicationStateStopped) :
    (setApplicationState app s).application_state_ = s ∧
    transitionAuditOk kApplicationStateStopped s =
      (s == kApplicationStatePreloading || s == kApplicationStateStarted) := by
  refine ⟨setApplicationState_state app s ?_, by cases s <;> rfl⟩
  rw [h1]
  exact fun hh => h2 hh.symm

/-- C1 (witness): instantiation of `stopped_is_not_absorbing` at a concrete
stopped application and the request `Started`. -/
theorem stopped_is_not_absorbing_witness :
    (⟨kApplicationStateStopped, false, []⟩ : Application).application_state_ =
      kApplicationStateStopped ∧
    kApplicationStateStarted ≠ kApplicationStateStopped ∧
    ((setApplicationState ⟨kApplicationStateStopped, false, []⟩
        kApplicationStateStarted).application_state_ = kApplicationStateStarted ∧
      transitionAuditOk kApplicationStateStopped kApplicationStateStarted =
        (kApplicationStateStarted == kApplicationStatePreloading ||
          kApplicationStateStarted == kApplicationStateStarted)) :=
  ⟨rfl, by decide,
    stopped_is_not_absorbing ⟨kApplicationStateStopped, false, []⟩
      kApplicationStateStarted rfl (by decide)⟩

/-- C2 (counterexample): the audit does not coincide with the spec's allowed
set: Started→Stopped (what `teardown()` requests from `Started`) is in the
spec's set but rejected by the audit, while Preloading→Suspended is accepted
by the audit but absent from the spec's set. -/
theorem transition_audit_spec_mismatch_cex :
    transitionAuditOk kApplicationStateStarted kApplicationStateStopped = false ∧
    specAllowedTransition kApplicationStateStarted kApplicationStateStopped = true ∧
    transitionAuditOk kApplicationStatePreloading kApplicationStateSuspended = true ∧
    specAllowedTransition kApplicationStatePreloading kApplicationStateSuspended = false := by
  decide

/-- C2 (amended): the audit accepts exactly Paused→{Suspended,Started},
Preloading→{Suspended,Started}, Started→Paused, Stopped→{Preloading,Started}
and Suspended→{Paused,Stopped}; consequently a request for `Stopped` passes
the audit only when the current state is `Suspended` (from `Stopped` itself
`teardown()` is a same-state no-op and the audit is skipped). -/
theorem transition_audit_characterization :
    (∀ previous state : ApplicationState,
      transitionAuditOk previous state = true ↔
        ((previous = kApplicationStatePaused ∧
            (state = kApplicationStateSuspended ∨ state = kApplicationStateStarted)) ∨
         (previous = kApplicationStatePreloading ∧
            (state = kApplicationStateSuspended ∨ state = kApplicationStateStarted)) ∨
         (previous = kApplicationStateStarted ∧ state = kApplicationStatePaused) ∨
         (previous = kApplicationStateStopped ∧
            (state = kApplicationStatePreloading ∨ state = kApplicationStateStarted)) ∨
         (previous = kApplicationStateSuspended ∧
            (state = kApplicationStatePaused ∨ state = kApplicationStateStopped)))) ∧
    (∀ previous : ApplicationState,
      transitionAuditOk previous kApplicationStateStopped = true ↔
        previous = kApplicationStateSuspended) := by
  constructor
  · intro p s
    cases p <;> cases s <;> decide
  · intro p
    cases p <;> decide

/-- C3: every state change notifies observers of the new state, followed by
exactly one focus-change notification if and only if `HasFocus` flips; and
`HasFocus` holds exactly for `Started`. -/
theorem state_change_notifications (app : Application) (s : ApplicationState)
    (h : app.application_state_ ≠ s) :
    (setApplicationState app s).events =
      app.events ++ [Event.stateChange s] ++
        (if HasFocus s != HasFocus app.application_state_ then
          [Event.focusChange (HasFocus s)]
        else []) ∧
    (∀ t : ApplicationState, HasFocus t = true ↔ t = kApplicationStateStarted) := by
  refine ⟨setApplicationState_events app s h, ?_⟩
  intro t
  cases t <;> simp [HasFocus]

/-- C3 (witness): instantiation of `state_change_notifications` at a concrete
Preloading→Started call, which flips focus. -/
theorem state_change_notifications_witness :
    (⟨kApplicationStatePreloading, false, []⟩ : Application).application_state_ ≠
      kApplicationStateStarted ∧
    ((setApplicationState ⟨kApplicationStatePreloading, false, []⟩
        kApplicationStateStarted).events =
      ([] : List Event) ++ [Event.stateChange kApplicationStateStarted] ++
        (if HasFocus kApplicationStateStarted !=
            HasFocus kApplicationStatePreloading then
          [Event.focusChange (HasFocus kApplicationStateStarted)]
        else []) ∧
      (∀ t : ApplicationState, HasFocus t = true ↔ t = kApplicationStateStarted)) :=
  ⟨by decide,
    state_change_notifications ⟨kApplicationStatePreloading, false, []⟩
      kApplicationStateStarted (by decide)⟩

/-- C4: requesting the state the application is already in returns with the
application object unchanged: same state, same loaded flag, and no observer
notification of any kind. -/
theorem reenter_same_state_noop (app : Application) (s : ApplicationState)
    (h : app.application_state_ = s) :
    setApplicationState app s = app :=
  setApplicationState_self app s h

/-- C4 (witness): instantiation of `reenter_same_state_noop` at a concrete
Started→Started call. -/
theorem reenter_same_state_noop_witness :
    (⟨kApplicationStateStarted, true, []⟩ : Application).application_state_ =
      kApplicationStateStarted ∧
    setApplicationState ⟨kApplicationStateStarted, true, []⟩
      kApplicationStateStarted = ⟨kApplicationStateStarted, true, []⟩ :=
  ⟨rfl, reenter_same_state_noop ⟨kApplicationStateStarted, true, []⟩
    kApplicationStateStarted rfl⟩

/-- C5: settlement is monotonic: on a node that has left `Pending`, any
settlement attempt returns `AlreadySettled` and leaves the node (state and
value) unchanged, and any sequence of further settlement attempts leaves the
node unchanged. -/
theorem settlement_monotonic (n : PromiseNode) (op : NodeOp) (ops : List NodeOp)
    (h : n.state ≠ SettlementState.Pending) :
    applyNodeOp n op = (n, SettleResult.alreadySettled) ∧
    applyNodeOps n ops = n :=
  ⟨applyNodeOp_settled n op h, applyNodeOps_settled ops n h⟩

/-- C5 (witness): instantiation of `settlement_monotonic` at a concrete
resolved node with a second `settle` and a later `cancel`. -/
theorem settlement_monotonic_witness :
    (⟨SettlementState.Resolved, some (SettleValue.resolvedPayload 5)⟩ :
        PromiseNode).state ≠ SettlementState.Pending ∧
    (applyNodeOp ⟨SettlementState.Resolved, some (SettleValue.resolvedPayload 5)⟩
        (NodeOp.settleOp (SettleValue.resolvedPayload 9)) =
      (⟨SettlementState.Resolved, some (SettleValue.resolvedPayload 5)⟩,
        SettleResult.alreadySettled) ∧
      applyNodeOps ⟨SettlementState.Resolved, some (SettleValue.resolvedPayload 5)⟩
        [NodeOp.cancelOp] =
        ⟨SettlementState.Resolved, some (SettleValue.resolvedPayload 5)⟩) :=
  ⟨by decide,
    settlement_monotonic ⟨SettlementState.Resolved,
        some (SettleValue.resolvedPayload 5)⟩
      (NodeOp.settleOp (SettleValue.resolvedPayload 9)) [NodeOp.cancelOp]
      (by decide)⟩

/-- C6: `NoOpPromiseExecutor`'s prerequisite-policy constant is `kNever`
(the never-auto-execute / `None` value), and `GetPrerequisitePolicy` returns
that same value for every executor instance, hence constant over any
executor's lifetime. -/
theorem noop_executor_prerequisite_policy :
    NoOpPromiseExecutor.kPrerequisitePolicy = PrerequisitePolicy.kNever ∧
    ∀ e : NoOpPromiseExecutor,
      e.GetPrerequisitePolicy = NoOpPromiseExecutor.kPrerequisitePolicy :=
  ⟨rfl, fun _ => rfl⟩

/-- C7: the loaded signal behaves as a waitable flag: with the flag unset the
wait times out returning `false`; after `signalOnLoad` the wait returns
`true`, and keeps returning `true` across any further API calls that do not
reset the flag (only `suspend` resets it). -/
theorem load_signal_waitable_flag :
    (∀ (app : Application) (t : Nat),
      app.app_loaded_ = false → waitForLoad app t = false) ∧
    (∀ (app : Application) (t : Nat), waitForLoad (signalOnLoad app) t = true) ∧
    (∀ (app : Application) (ops : List AppOp) (t : Nat),
      (∀ op ∈ ops, op ≠ AppOp.opSuspend) →
      waitForLoad (applyAppOps (signalOnLoad app) ops) t = true) := by
  refine ⟨fun app t h => h, fun app t => rfl, fun app ops t hops => ?_⟩
  exact applyAppOps_preserves_loaded ops (signalOnLoad app) rfl hops

/-- C7 (witness): instantiation of `load_signal_waitable_flag` at a concrete
application, with a `start()` call intervening after the signal. -/
theorem load_signal_waitable_flag_witness :
    (⟨kApplicationStatePreloading, false, []⟩ : Application).app_loaded_ = false ∧
    waitForLoad ⟨kApplicationStatePreloading, false, []⟩ 5 = false ∧
    waitForLoad (signalOnLoad ⟨kApplicationStatePreloading, false, []⟩) 5 = true ∧
    (∀ op ∈ [AppOp.opStart], op ≠ AppOp.opSuspend) ∧
    waitForLoad (applyAppOps (signalOnLoad ⟨kApplicationStatePreloading, false, []⟩)
      [AppOp.opStart]) 5 = true :=
  ⟨rfl,
    load_signal_waitable_flag.1 ⟨kApplicationStatePreloading, false, []⟩ 5 rfl,
    load_signal_waitable_flag.2.1 ⟨kApplicationStatePreloading, false, []⟩ 5,
    by decide,
    load_signal_waitable_flag.2.2 ⟨kApplicationStatePreloading, false, []⟩
      [AppOp.opStart] 5 (by decide)⟩

/-- C8: `suspend()` from any state other than `Paused` performs two
transitions (to `Paused`, then to `Suspended`), each notifying observers
(with a focus-change notification in between exactly when starting from
`Started`); from `Paused` it performs only the transition to `Suspended`.
In every case it ends in `Suspended` with the loaded flag reset, so
`waitForLoad` returns `false` until `signalOnLoad` is called again. -/
theorem suspend_behavior (app : Application) :
    (suspend app).application_state_ = kApplicationStateSuspended ∧
    (suspend app).app_loaded_ = false ∧
    (∀ t : Nat, waitForLoad (suspend app) t = false) ∧
    (∀ t : Nat, waitForLoad (signalOnLoad (suspend app)) t = true) ∧
    (suspend app).events =
      (if app.application_state_ = kApplicationStatePaused then
        app.events ++ [Event.stateChange kApplicationStateSuspended]
      else
        app.events ++ [Event.stateChange kApplicationStatePaused] ++
          (if app.application_state_ = kApplicationStateStarted then
            [Event.focusChange false]
          else []) ++
          [Event.stateChange kApplicationStateSuspended]) := by
  obtain ⟨st, loaded, evs⟩ := app
  cases st <;>
    simp [suspend, setApplicationState, notifyStateChange, notifyFocusChange,
      HasFocus, waitForLoad, signalOnLoad]

/-- C9: the destructor's assertion passes exactly when the application state
is `Stopped`; destroying an application in any other state fails the
assertion. -/
theorem destructor_requires_stopped :
    ∀ app : Application,
      destructorAuditOk app = true ↔
        app.application_state_ = kApplicationStateStopped := by
  intro app
  simp [destructorAuditOk]

/-- C10: `polymorphic_downcast` returns exactly `static_cast` of its
argument; when the pointee's dynamic type matches (`dynamic_cast` returns the
argument itself), the debug assertion holds and the result is the very pointer
passed in. -/
theorem polymorphic_downcast_correct (heap : Nat → Bool) (base : Option Nat)
    (h : dynamicCast heap base = base) :
    polymorphic_downcast heap base = staticCast base ∧
    polymorphicDowncastAuditOk heap base = true ∧
    polymorphic_downcast heap base = base := by
  refine ⟨rfl, ?_, rfl⟩
  simp [polymorphicDowncastAuditOk, h]

/-- C10 (witness): instantiation of `polymorphic_downcast_correct` at a
non-null pointer whose pointee has the derived dynamic type. -/
theorem polymorphic_downcast_correct_witness :
    dynamicCast (fun _ => true) (some 7) = some 7 ∧
    (polymorphic_downcast (fun _ => true) (some 7) =
        staticCast (some 7) ∧
      polymorphicDowncastAuditOk (fun _ => true) (some 7) = true ∧
      polymorphic_downcast (fun _ => true) (some 7) = some 7) :=
  ⟨rfl, polymorphic_downcast_correct (fun _ => true) (some 7) rfl⟩

end Basis
